import Mathlib

/-!
Shallow embedding of the binaryanalysis-ng (BANG) excerpt:
`src/parsers/image/bmp/UnpackParser.py`,
`src/parsers/firmware/android_boot_huawei/UnpackParser.py` and
`src/crawlers/debiancrawler.py`, together with the theorems that settle the
frozen claims about them.

Machine integers in the Python sources are unbounded Python ints backed by
kaitai `u2le`/`u4le` reads; they are embedded as `Nat`.  Fallible code
(`raise` / `try ... except`) is embedded with `Except`.  The stateful worker
loop of the crawler is embedded as an explicit event trace.
-/

namespace Bang

/-- Python exception values as they matter at the parse boundary: the
`UnpackParserException` raised by the wrappers and by `check_condition`, the
kaitai `ValidationNotEqualError` (magic mismatch), an end-of-stream error
(read past the end of the input), and any other `Exception`.  Each carries its
`args` tuple, embedded as a list of strings. -/
inductive PyExc where
  | unpackParserException (args : List String)
  | validationNotEqual (args : List String)
  | endOfStream (args : List String)
  | otherError (args : List String)
deriving Repr, DecidableEq

/-- The `args` attribute of a Python exception. -/
def PyExc.args : PyExc → List String
  | .unpackParserException a => a
  | .validationNotEqual a => a
  | .endOfStream a => a
  | .otherError a => a

/-- Whether an exception value is an `UnpackParserException`. -/
def PyExc.isUnpackParserException : PyExc → Bool
  | .unpackParserException _ => true
  | _ => false

/-- Decidable equality of `Except` outcomes, used to evaluate the embedding on
concrete inputs. -/
instance {ε α : Type} [DecidableEq ε] [DecidableEq α] : DecidableEq (Except ε α) := fun x y =>
  match x, y with
  | Except.ok a, Except.ok b =>
    if h : a = b then Decidable.isTrue (by rw [h]) else
      Decidable.isFalse (fun hc => h (Except.ok.inj hc))
  | Except.error a, Except.error b =>
    if h : a = b then Decidable.isTrue (by rw [h]) else
      Decidable.isFalse (fun hc => h (Except.error.inj hc))
  | Except.ok _, Except.error _ => Decidable.isFalse (fun hc => Except.noConfusion hc)
  | Except.error _, Except.ok _ => Decidable.isFalse (fun hc => Except.noConfusion hc)

/-- Whether an `Except` computation succeeded. -/
def exceptIsOk {α : Type} (x : Except PyExc α) : Bool :=
  match x with
  | Except.ok _ => true
  | Except.error _ => false

/-- Little-endian 16-bit read at a byte offset (missing bytes read as 0;
callers check the length first, so the default is never hit on the paths the
theorems use). -/
def readU16le (bytes : List Nat) (off : Nat) : Nat :=
  bytes.getD off 0 + 256 * bytes.getD (off + 1) 0

/-- Little-endian 32-bit read at a byte offset. -/
def readU32le (bytes : List Nat) (off : Nat) : Nat :=
  bytes.getD off 0 + 256 * bytes.getD (off + 1) 0 +
    65536 * bytes.getD (off + 2) 0 + 16777216 * bytes.getD (off + 3) 0

/-- The BITMAPFILEHEADER of a BMP file as the kaitai struct exposes it:
`len_file` is the declared total file length, `ofs_bitmap` the declared offset
of the pixel data. -/
structure BmpFileHeader where
  len_file : Nat
  reserved1 : Nat
  reserved2 : Nat
  ofs_bitmap : Nat
deriving Repr, DecidableEq

/-- The parsed-structure state `self.data` of `BmpUnpackParser`: only the
`file_hdr` member is consulted by the wrapper code under `src/`. -/
structure BmpData where
  file_hdr : BmpFileHeader
deriving Repr, DecidableEq

/-- Modelled from the spec: the kaitai-generated structural parse
`bmp.Bmp.from_io` (file `bmp.py`, generated from the BMP ksy, not included
under `src/`).  Per the spec a structural parse "reads only as much as its
format declares and fails with a StructuralMismatch if a validation condition
(magic confirmation ...) does not hold", and "any attempted read past the
backing buffer's end" raises.  The fixed 14-byte file header carries the magic
`BM` (a `ValidationNotEqualError` when it differs), then the `len_file` u4le
field at offset 2, two reserved u2le fields and the u4le bitmap offset.  No
validation condition of the format relates `len_file` to the length of the
input; the DIB header that follows the file header does not involve `len_file`
and is abstracted away here. -/
def bmpKaitai (bytes : List Nat) : Except PyExc BmpData :=
  if bytes.length < 2 then
    Except.error (PyExc.endOfStream ["requested 2 bytes, got fewer"])
  else if bytes.getD 0 0 == 66 && bytes.getD 1 0 == 77 then
    if bytes.length < 14 then
      Except.error (PyExc.endOfStream ["requested 12 bytes, got fewer"])
    else
      Except.ok
        { file_hdr :=
            { len_file := readU32le bytes 2
              reserved1 := readU16le bytes 6
              reserved2 := readU16le bytes 8
              ofs_bitmap := readU32le bytes 10 } }
  else
    Except.error (PyExc.validationNotEqual ["magic mismatch"])

/-- `BmpUnpackParser.parse` (src/src/parsers/image/bmp/UnpackParser.py, lines
45-50): the outcome of the kaitai structural parse is taken as input; the
`except (Exception, ValidationNotEqualError)` clause catches any exception `e`
the structural parse raises and re-raises `UnpackParserException(e.args)`. -/
def bmpParse (kaitai : Except PyExc BmpData) : Except PyExc BmpData :=
  match kaitai with
  | Except.error e => Except.error (PyExc.unpackParserException e.args)
  | Except.ok d => Except.ok d

/-- `BmpUnpackParser.parse` applied to a concrete input file. -/
def bmpParseBytes (bytes : List Nat) : Except PyExc BmpData :=
  bmpParse (bmpKaitai bytes)

/-- `BmpUnpackParser.calculate_unpacked_size` (lines 52-53):
`self.unpacked_size = self.data.file_hdr.len_file`. -/
def bmpCalculateUnpackedSize (data : BmpData) : Nat :=
  data.file_hdr.len_file

/-- The `img_header` member of the kaitai Huawei boot image struct; the
wrapper code consults only `meta_header_size`. -/
structure HuaweiImageHeader where
  meta_header_size : Nat
deriving Repr, DecidableEq

/-- One `img_header_entries` element of the kaitai Huawei boot image struct:
the fields `name`, `offset` and `size` the wrapper code reads. -/
structure HuaweiEntry where
  name : String
  offset : Nat
  size : Nat
deriving Repr, DecidableEq

/-- The parsed-structure state `self.data` of `AndroidBootHuaweiUnpackParser`
(the kaitai `AndroidImgHuawei` object): the header and the entry list. -/
structure AndroidImgHuawei where
  img_header : HuaweiImageHeader
  img_header_entries : List HuaweiEntry
deriving Repr, DecidableEq

/-- Modelled from the spec: `check_condition` from the parser-contract layer
(file `UnpackParser.py`, not included under `src/`).  Per the spec a parser
"fails with a StructuralMismatch if a validation condition does not hold"; the
helper raises `UnpackParserException(message)` when the condition is false. -/
def check_condition (condition : Bool) (message : String) : Except PyExc Unit :=
  if condition then Except.ok () else Except.error (PyExc.unpackParserException [message])

/-- The `unpacked_size` accumulation loop of `AndroidBootHuaweiUnpackParser.parse`
(lines 50-52): starting from 0, take the maximum with `entry.offset + entry.size`
for each header entry. -/
def huaweiUnpackedSize (data : AndroidImgHuawei) : Nat :=
  data.img_header_entries.foldl (fun acc entry => max acc (entry.offset + entry.size)) 0

/-- `AndroidBootHuaweiUnpackParser.parse`
(src/src/parsers/firmware/android_boot_huawei/UnpackParser.py, lines 43-53):
`file_size` is the `stat().st_size` of the input; the kaitai structural parse
outcome is taken as input and any exception it raises is re-raised as
`UnpackParserException(e.args)`; then `check_condition` validates the declared
meta header size and that the file holds the maximum entry end offset.  On
success the parser state holds the parsed data and the `unpacked_size` set
during `parse`. -/
def huaweiParse (file_size : Nat) (kaitai : Except PyExc AndroidImgHuawei) :
    Except PyExc (AndroidImgHuawei × Nat) :=
  match kaitai with
  | Except.error e => Except.error (PyExc.unpackParserException e.args)
  | Except.ok data =>
    match check_condition (data.img_header.meta_header_size == 76) "invalid header size" with
    | Except.error e => Except.error e
    | Except.ok _ =>
      match check_condition (decide (file_size ≥ huaweiUnpackedSize data)) "not enough data" with
      | Except.error e => Except.error e
      | Except.ok _ => Except.ok (data, huaweiUnpackedSize data)

/-- `AndroidBootHuaweiUnpackParser.calculate_unpacked_size` (lines 75-77) is
`pass`: the `unpacked_size` attribute set during `parse` is left unchanged. -/
def huaweiCalculateUnpackedSize (unpacked_size : Nat) : Nat :=
  unpacked_size

/-- Modelled from the spec: a `FileResult` (file `FileResult.py`, not included
under `src/`) records an extracted child; here it is paired with the byte
range `(offset, size)` that `extract_to_file` copies to the relative path the
result is attached to. -/
structure FileResult where
  path : String
  offset : Nat
  size : Nat
deriving Repr, DecidableEq

/-- `AndroidBootHuaweiUnpackParser.unpack` (lines 60-73): iterate the header
entries in order, skip entries with `size == 0` or an empty name, and for
every other entry extract the byte range `(entry.offset, entry.size)` to the
path `entry.name` and append the corresponding `FileResult`. -/
def huaweiUnpack : List HuaweiEntry → List FileResult
  | [] => []
  | entry :: rest =>
    if entry.size == 0 then huaweiUnpack rest
    else if entry.name == "" then huaweiUnpack rest
    else { path := entry.name, offset := entry.offset, size := entry.size } :: huaweiUnpack rest

/-- One record of `metadata['partitions']` as built by
`set_metadata_and_labels`. -/
structure PartitionRecord where
  name : String
  offset : Nat
  size : Nat
deriving Repr, DecidableEq

/-- The labels and metadata stored into `self.unpack_results`. -/
structure UnpackResults where
  labels : List String
  partitions : List PartitionRecord
deriving Repr, DecidableEq

/-- The `metadata['partitions']` loop of `set_metadata_and_labels` (lines
84-90): entries with `size == 0` are skipped, all others (their name may be
empty) yield a record, in header-entry order. -/
def huaweiPartitions : List HuaweiEntry → List PartitionRecord
  | [] => []
  | entry :: rest =>
    if entry.size == 0 then huaweiPartitions rest
    else { name := entry.name, offset := entry.offset, size := entry.size } :: huaweiPartitions rest

/-- `AndroidBootHuaweiUnpackParser.set_metadata_and_labels` (lines 79-93): a
total function of the parsed data (it cannot fail), producing the fixed label
list and the partition records. -/
def huaweiSetMetadataAndLabels (data : AndroidImgHuawei) : UnpackResults :=
  { labels := ["android", "bootloader", "huawei"]
    partitions := huaweiPartitions data.img_header_entries }

/-- Outcome of one `requests.get` call in `downloadfile`: either the request
raised a `requests.exceptions.RequestException`, or it returned a response
with a status code and a content body. -/
inductive HttpOutcome where
  | requestException
  | response (status : Nat) (content : List Nat)
deriving Repr, DecidableEq

/-- Whether this HTTP outcome is one the worker treats as a failure: a raised
`RequestException` or a status code other than 200. -/
def httpFailed : HttpOutcome → Bool
  | HttpOutcome.requestException => true
  | HttpOutcome.response status _ => status != 200

/-- Observable actions of one `downloadfile` worker, in program order:
`task_done` on the download queue, `os.unlink` of the result file, the
`requests.get` call, a `put` on the fail queue, and the write of the result
file. -/
inductive DlEvent where
  | taskDone
  | unlink
  | httpGet
  | failPut (name : String)
  | writeFile (content : List Nat)
deriving Repr, DecidableEq

/-- The download attempt of one `downloadfile` iteration (debiancrawler.py,
lines 51-71): perform the GET; on a `RequestException` or a status other than
200 put the file name on the fail queue and call `task_done`; on status 200
write the content to the result file and call `task_done`. -/
def downloadRequest (debianfile : String) (http : HttpOutcome) : List DlEvent :=
  match http with
  | HttpOutcome.requestException => [DlEvent.httpGet, DlEvent.failPut debianfile, DlEvent.taskDone]
  | HttpOutcome.response status content =>
    if status != 200 then [DlEvent.httpGet, DlEvent.failPut debianfile, DlEvent.taskDone]
    else [DlEvent.httpGet, DlEvent.writeFile content, DlEvent.taskDone]

/-- One iteration of the `while True` loop of `downloadfile` (lines 35-71) on
a dequeued task: `existing` is the current content of the destination file
(`none` when it does not exist).  A file already present with the size listed
in the metadata is only logged and the task acknowledged; a file present with
another size is unlinked before the download attempt. -/
def downloadIter (debianfile : String) (debiansize : Nat) (existing : Option (List Nat))
    (http : HttpOutcome) : List DlEvent :=
  match existing with
  | some content =>
    if content.length == debiansize then [DlEvent.taskDone]
    else DlEvent.unlink :: downloadRequest debianfile http
  | none => downloadRequest debianfile http

/-- The `downloadfile` worker loop over a sequence of dequeued tasks, each
with the destination-file state it observes and its HTTP outcome: every
iteration ends back at the top of the `while True` loop, so the events of all
tasks are concatenated in order. -/
def downloadfile : List (String × Nat × Option (List Nat) × HttpOutcome) → List DlEvent
  | [] => []
  | (debianfile, debiansize, existing, http) :: rest =>
    downloadIter debianfile debiansize existing http ++ downloadfile rest

/-- Destination-file content after replaying a worker's events over an
initial content. -/
def fileAfter (existing : Option (List Nat)) (events : List DlEvent) : Option (List Nat) :=
  events.foldl
    (fun st e =>
      match e with
      | DlEvent.unlink => none
      | DlEvent.writeFile c => some c
      | _ => st)
    existing

/-- The store-directory state the hash check of the crawler's `main` touches:
the content of the `HASH` state file (`none` when absent) and whether the
freshly written `ls-lR.gz-<timestamp>` metadata copy still exists. -/
structure CrawlerStore where
  hashFileContent : Option String
  metaFileExists : Bool
deriving Repr, DecidableEq

/-- How the hash check leaves `main`: `exitZero` is `sys.exit(0)`,
`continued` means execution falls through to the download phase. -/
inductive CrawlerOutcome where
  | exitZero
  | continued
deriving Repr, DecidableEq

/-- The hash check of `main` (debiancrawler.py, lines 240-259): `filehash` is
the SHA-256 hex digest of the downloaded `ls-lR.gz` content (the `hashlib`
library call is taken as an abstract value).  If the `HASH` file exists and
its content equals `filehash`, the metadata copy is unlinked and the program
exits with status 0; otherwise `filehash` is written to the `HASH` file and
processing continues. -/
def hashCheckStep (filehash : String) (store : CrawlerStore) : CrawlerStore × CrawlerOutcome :=
  match store.hashFileContent with
  | some oldhashdata =>
    if oldhashdata == filehash then
      ({ hashFileContent := some oldhashdata, metaFileExists := false }, CrawlerOutcome.exitZero)
    else
      ({ hashFileContent := some filehash, metaFileExists := store.metaFileExists },
        CrawlerOutcome.continued)
  | none =>
    ({ hashFileContent := some filehash, metaFileExists := store.metaFileExists },
      CrawlerOutcome.continued)

/-- Python `str.endswith`, over the characters of the strings. -/
def endswith (s suffix_arg : String) : Bool :=
  suffix_arg.toList.isSuffixOf s.toList

/-- The suffix `.dsc` of line 295. -/
def suffix_dsc : String := ".dsc"

/-- The suffix `.deb` of line 298. -/
def suffix_deb : String := ".deb"

/-- The suffix `.diff.gz` of line 304. -/
def suffix_diff_gz : String := ".diff.gz"

/-- The suffix `.orig.tar.bz2` of line 307. -/
def suffix_orig_tar_bz2 : String := ".orig.tar.bz2"

/-- The suffix `.orig.tar.gz` of line 310. -/
def suffix_orig_tar_gz : String := ".orig.tar.gz"

/-- The suffix `.orig.tar.xz` of line 313. -/
def suffix_orig_tar_xz : String := ".orig.tar.xz"

/-- `debianarchitectures` (line 272). -/
def debianarchitectures : List String := ["all", "i386", "amd64", "arm64", "armhf"]

/-- The inner architecture loop of lines 299-303: a `.deb` is enqueued (once,
the loop breaks after the first hit) iff its name ends in `_<arch>.deb` for
one of the architectures. -/
def debArchMatch (downloadpath : String) : Bool :=
  debianarchitectures.any (fun arch => endswith downloadpath ("_" ++ arch ++ suffix_deb))

/-- The four per-category store directories a pool file can be routed to. -/
inductive DebCategory where
  | dscdirectory
  | binarydirectory
  | patchesdirectory
  | sourcedirectory
deriving Repr, DecidableEq

/-- The queue puts of lines 295-315 for one `-` line of the pool listing, in
program order: each independent `if` enqueues the file to one category
directory when its suffix matches. -/
def enqueueFor (downloadpath : String) : List DebCategory :=
  (if endswith downloadpath suffix_dsc then [DebCategory.dscdirectory] else []) ++
  (if endswith downloadpath suffix_deb then
    (if debArchMatch downloadpath then [DebCategory.binarydirectory] else [])
  else []) ++
  (if endswith downloadpath suffix_diff_gz then [DebCategory.patchesdirectory] else []) ++
  (if endswith downloadpath suffix_orig_tar_bz2 then [DebCategory.sourcedirectory] else []) ++
  (if endswith downloadpath suffix_orig_tar_gz then [DebCategory.sourcedirectory] else []) ++
  (if endswith downloadpath suffix_orig_tar_xz then [DebCategory.sourcedirectory] else [])

/-- The Debian pool sections of line 200. -/
def debianSections : List String := ["contrib", "main", "non-free"]

/-- The subdirectories ensured by the loop of lines 199-208, in loop order:
for each section, one under `binary`, `source`, `dsc` and `patches`. -/
def sectionSubdirs : List (String × String) :=
  debianSections.foldl
    (fun acc i => acc ++ [("binary", i), ("source", i), ("dsc", i), ("patches", i)])
    []

/-- The part of `main` from the hash check to the end of the enqueue phase
(lines 240-316): on `exitZero` no download task is ever enqueued; on
`continued` the pool listing's file names are routed by `enqueueFor`. -/
def crawlerRun (filehash : String) (store : CrawlerStore) (poolpaths : List String) :
    CrawlerStore × CrawlerOutcome × List DebCategory :=
  match hashCheckStep filehash store with
  | (store', CrawlerOutcome.exitZero) => (store', CrawlerOutcome.exitZero, [])
  | (store', CrawlerOutcome.continued) =>
    (store', CrawlerOutcome.continued, poolpaths.foldl (fun acc p => acc ++ enqueueFor p) [])

/-- The initial accumulator never exceeds a `foldl max`. -/
lemma foldl_max_init_le (l : List Nat) : ∀ a : Nat, a ≤ l.foldl max a := by
  induction l with
  | nil => intro a; exact Nat.le_refl a
  | cons x xs ih =>
    intro a
    exact Nat.le_trans (Nat.le_max_left a x) (ih (max a x))

/-- Every list element is bounded by a `foldl max`. -/
lemma foldl_max_mem_le (l : List Nat) :
    ∀ a : Nat, ∀ x ∈ l, x ≤ l.foldl max a := by
  induction l with
  | nil => intro a x hx; cases hx
  | cons y ys ih =>
    intro a x hx
    rcases List.mem_cons.mp hx with h | h
    · subst h
      exact Nat.le_trans (Nat.le_max_right a x) (foldl_max_init_le ys (max a x))
    · exact ih (max a y) x h

/-- A `foldl max` equals its initial accumulator or is attained in the list. -/
lemma foldl_max_eq_or_mem (l : List Nat) :
    ∀ a : Nat, l.foldl max a = a ∨ l.foldl max a ∈ l := by
  induction l with
  | nil => intro a; left; rfl
  | cons y ys ih =>
    intro a
    rcases ih (max a y) with h | h
    · rcases max_choice a y with hm | hm
      · left; rw [List.foldl_cons, h, hm]
      · right; rw [List.foldl_cons, h, hm]; exact List.mem_cons_self y ys
    · right
      rw [List.foldl_cons]
      exact List.mem_cons_of_mem y h

/-- Success characterization of the Huawei `parse`: it returns the parsed
data with the computed unpacked size exactly when the kaitai parse returned
that data, the declared meta header size is 76, and the file holds the
maximum entry end offset. -/
lemma huaweiParse_ok_iff (file_size : Nat) (kaitai : Except PyExc AndroidImgHuawei)
    (data : AndroidImgHuawei) (sz : Nat) :
    huaweiParse file_size kaitai = Except.ok (data, sz) ↔
      kaitai = Except.ok data ∧ data.img_header.meta_header_size = 76 ∧
        huaweiUnpackedSize data ≤ file_size ∧ sz = huaweiUnpackedSize data := by
  cases kaitai with
  | error e => simp [huaweiParse]
  | ok d =>
    by_cases h76 : d.img_header.meta_header_size = 76
    · have hb : (d.img_header.meta_header_size == 76) = true := beq_iff_eq.mpr h76
      by_cases hfs : huaweiUnpackedSize d ≤ file_size
      · have hd : decide (file_size ≥ huaweiUnpackedSize d) = true := decide_eq_true hfs
        constructor
        · intro h
          simp [huaweiParse, check_condition, hb, hd] at h
          obtain ⟨rfl, rfl⟩ := h
          exact ⟨rfl, h76, hfs, rfl⟩
        · rintro ⟨heq, -, -, rfl⟩
          injection heq with h'
          subst h'
          simp [huaweiParse, check_condition, hb, hd]
      · have hd : decide (file_size ≥ huaweiUnpackedSize d) = false :=
          decide_eq_false (fun h => hfs h)
        constructor
        · intro h
          simp [huaweiParse, check_condition, hb, hd] at h
        · rintro ⟨heq, -, h3, -⟩
          injection heq with h'
          subst h'
          exact absurd h3 hfs
    · have hb : (d.img_header.meta_header_size == 76) = false :=
        beq_eq_false_iff_ne.mpr h76
      constructor
      · intro h
        simp [huaweiParse, check_condition, hb] at h
      · rintro ⟨heq, h2, -, -⟩
        injection heq with h'
        subst h'
        exact absurd h2 h76

/-- Error characterization of the Huawei `parse`. -/
lemma huaweiParse_error_iff (file_size : Nat) (kaitai : Except PyExc AndroidImgHuawei) :
    (∃ e, huaweiParse file_size kaitai = Except.error e) ↔
      ((∃ e, kaitai = Except.error e) ∨
        (∃ data, kaitai = Except.ok data ∧
          (data.img_header.meta_header_size ≠ 76 ∨ file_size < huaweiUnpackedSize data))) := by
  cases kaitai with
  | error e => simp [huaweiParse]
  | ok d =>
    by_cases h76 : d.img_header.meta_header_size = 76
    · have hb : (d.img_header.meta_header_size == 76) = true := beq_iff_eq.mpr h76
      by_cases hfs : huaweiUnpackedSize d ≤ file_size
      · have hd : decide (file_size ≥ huaweiUnpackedSize d) = true := decide_eq_true hfs
        have hlt : ¬ file_size < huaweiUnpackedSize d := Nat.not_lt.mpr hfs
        simp [huaweiParse, check_condition, hb, hd, h76, hlt]
      · have hd : decide (file_size ≥ huaweiUnpackedSize d) = false :=
          decide_eq_false (fun h => hfs h)
        have hlt : file_size < huaweiUnpackedSize d := Nat.not_le.mp hfs
        simp [huaweiParse, check_condition, hb, hd, h76, hlt]
    · have hb : (d.img_header.meta_header_size == 76) = false :=
        beq_eq_false_iff_ne.mpr h76
      simp [huaweiParse, check_condition, hb, h76]

/-- `endswith` unfolded to the list-suffix relation. -/
lemma endswith_iff (s t : String) : endswith s t = true ↔ t.toList <:+ s.toList := by
  simp [endswith, List.isSuffixOf_iff_suffix]

/-- Two incomparable strings are never both suffixes of the same string. -/
lemma endswith_excl_false (p a b : String) (ha : endswith p a = true)
    (h1 : ¬ a.toList <:+ b.toList) (h2 : ¬ b.toList <:+ a.toList) :
    endswith p b = false := by
  cases hx : endswith p b with
  | false => rfl
  | true =>
    rcases List.suffix_or_suffix_of_suffix ((endswith_iff p a).mp ha)
        ((endswith_iff p b).mp hx) with h | h
    · exact absurd h h1
    · exact absurd h h2

/-- An architecture-suffix match implies the `.deb` suffix. -/
lemma debArchMatch_deb (p : String) (h : debArchMatch p = true) :
    endswith p suffix_deb = true := by
  rw [endswith_iff]
  simp [debArchMatch, debianarchitectures] at h
  rcases h with h | h | h | h | h <;>
    exact List.IsSuffix.trans (by decide) ((endswith_iff p _).mp h)

/-- Routing of the pool enqueue phase: the six independent `if`s of lines
295-315 behave as a single suffix-directed dispatch, because no two of the
suffix conditions can hold of the same file name. -/
lemma enqueueFor_eq (p : String) :
    enqueueFor p =
      if endswith p suffix_dsc then [DebCategory.dscdirectory]
      else if debArchMatch p then [DebCategory.binarydirectory]
      else if endswith p suffix_diff_gz then [DebCategory.patchesdirectory]
      else if endswith p suffix_orig_tar_bz2 || endswith p suffix_orig_tar_gz ||
          endswith p suffix_orig_tar_xz then [DebCategory.sourcedirectory]
      else [] := by
  cases hd : endswith p suffix_dsc with
  | true =>
    have hb := endswith_excl_false p suffix_dsc suffix_deb hd (by decide) (by decide)
    have ha : debArchMatch p = false := by
      cases hx : debArchMatch p with
      | false => rfl
      | true => rw [debArchMatch_deb p hx] at hb; exact Bool.noConfusion hb
    have hg := endswith_excl_false p suffix_dsc suffix_diff_gz hd (by decide) (by decide)
    have h2 := endswith_excl_false p suffix_dsc suffix_orig_tar_bz2 hd (by decide) (by decide)
    have h3 := endswith_excl_false p suffix_dsc suffix_orig_tar_gz hd (by decide) (by decide)
    have h4 := endswith_excl_false p suffix_dsc suffix_orig_tar_xz hd (by decide) (by decide)
    simp [enqueueFor, hd, hb, ha, hg, h2, h3, h4]
  | false =>
    cases ha : debArchMatch p with
    | true =>
      have hb := debArchMatch_deb p ha
      have hg := endswith_excl_false p suffix_deb suffix_diff_gz hb (by decide) (by decide)
      have h2 := endswith_excl_false p suffix_deb suffix_orig_tar_bz2 hb (by decide) (by decide)
      have h3 := endswith_excl_false p suffix_deb suffix_orig_tar_gz hb (by decide) (by decide)
      have h4 := endswith_excl_false p suffix_deb suffix_orig_tar_xz hb (by decide) (by decide)
      simp [enqueueFor, hd, ha, hb, hg, h2, h3, h4]
    | false =>
      cases hg : endswith p suffix_diff_gz with
      | true =>
        have h2 := endswith_excl_false p suffix_diff_gz suffix_orig_tar_bz2 hg (by decide) (by decide)
        have h3 := endswith_excl_false p suffix_diff_gz suffix_orig_tar_gz hg (by decide) (by decide)
        have h4 := endswith_excl_false p suffix_diff_gz suffix_orig_tar_xz hg (by decide) (by decide)
        simp [enqueueFor, hd, ha, hg, h2, h3, h4]
      | false =>
        cases h2 : endswith p suffix_orig_tar_bz2 with
        | true =>
          have h3 := endswith_excl_false p suffix_orig_tar_bz2 suffix_orig_tar_gz h2
            (by decide) (by decide)
          have h4 := endswith_excl_false p suffix_orig_tar_bz2 suffix_orig_tar_xz h2
            (by decide) (by decide)
          simp [enqueueFor, hd, ha, hg, h2, h3, h4]
        | false =>
          cases h3 : endswith p suffix_orig_tar_gz with
          | true =>
            have h4 := endswith_excl_false p suffix_orig_tar_gz suffix_orig_tar_xz h3
              (by decide) (by decide)
            simp [enqueueFor, hd, ha, hg, h2, h3, h4]
          | false =>
            cases h4 : endswith p suffix_orig_tar_xz <;>
              simp [enqueueFor, hd, ha, hg, h2, h3, h4]

/-- A 14-byte input whose BMP file header declares `len_file = 0`: magic `BM`,
then four zero bytes for `len_file`, the reserved fields, and `ofs_bitmap = 14`. -/
def bmpZeroLenInput : List Nat := [66, 77, 0, 0, 0, 0, 0, 0, 0, 0, 14, 0, 0, 0]

/-- The parsed structure the BMP parse produces on `bmpZeroLenInput`. -/
def bmpZeroLenData : BmpData :=
  { file_hdr := { len_file := 0, reserved1 := 0, reserved2 := 0, ofs_bitmap := 14 } }

/-- A Huawei boot image with a valid meta header and no entries. -/
def huaweiEmptyImage : AndroidImgHuawei :=
  { img_header := { meta_header_size := 76 }, img_header_entries := [] }

/-- A Huawei boot image whose declared meta header size is not 76. -/
def huaweiBadHeaderImage : AndroidImgHuawei :=
  { img_header := { meta_header_size := 75 }, img_header_entries := [] }

/-- A Huawei boot image with two entries ending at offset 12. -/
def huaweiTwoEntryImage : AndroidImgHuawei :=
  { img_header := { meta_header_size := 76 }
    img_header_entries := [{ name := "kernel", offset := 0, size := 8 },
                           { name := "ramdisk", offset := 8, size := 4 }] }

/-- C1: counterexample.  `BmpUnpackParser.parse` succeeds on a 14-byte input
whose header declares `len_file = 0`, and `calculate_unpacked_size` then sets
`unpacked_size = 0`, so `0 < unpacked_size` fails on an input the parse
accepts. -/
theorem C1_counterexample :
    bmpParseBytes bmpZeroLenInput = Except.ok bmpZeroLenData ∧
      ¬ (0 < bmpCalculateUnpackedSize bmpZeroLenData) :=
  ⟨by decide, by decide⟩

/-- C1 (amended): whenever `AndroidBootHuaweiUnpackParser.parse` succeeds, the
unpacked size it computed is at most the file length (the lower bound
`0 < unpacked_size` is not guaranteed — an image with no entries yields 0);
whenever `BmpUnpackParser.parse` succeeds, the unpacked size is exactly the
`len_file` field declared at byte offset 2 of the input, with neither bound
enforced against the input length. -/
theorem C1_amended_unpacked_size_bounds :
    (∀ (file_size : Nat) (kaitai : Except PyExc AndroidImgHuawei)
        (data : AndroidImgHuawei) (sz : Nat),
      huaweiParse file_size kaitai = Except.ok (data, sz) → sz ≤ file_size) ∧
    (∀ (bytes : List Nat) (data : BmpData),
      bmpParseBytes bytes = Except.ok data →
        bmpCalculateUnpackedSize data = readU32le bytes 2) := by
  constructor
  · intro file_size kaitai data sz h
    obtain ⟨-, -, hle, rfl⟩ := (huaweiParse_ok_iff file_size kaitai data sz).mp h
    exact hle
  · intro bytes data h
    unfold bmpParseBytes bmpParse bmpKaitai at h
    split at h
    · exact Except.noConfusion h
    · rename_i d heq
      injection h with h'
      subst h'
      split at heq
      · exact Except.noConfusion heq
      · split at heq
        · split at heq
          · exact Except.noConfusion heq
          · injection heq with h''
            subst h''
            rfl
        · exact Except.noConfusion heq

/-- C1 (amended) witness: the empty Huawei image parsed against file size 10,
and the concrete BMP input. -/
theorem C1_amended_witness :
    (0 : Nat) ≤ 10 ∧ bmpCalculateUnpackedSize bmpZeroLenData = readU32le bmpZeroLenInput 2 :=
  ⟨C1_amended_unpacked_size_bounds.1 10 (Except.ok huaweiEmptyImage) huaweiEmptyImage 0
      (by decide),
    C1_amended_unpacked_size_bounds.2 bmpZeroLenInput bmpZeroLenData (by decide)⟩

/-- C2: every error either `parse` can return is an `UnpackParserException`:
whatever exception the kaitai structural parse raises (a magic mismatch, a
read past the end of the input, or any other exception) is caught and
re-raised as `UnpackParserException`, and the only other raises are the
`check_condition` calls, which also raise `UnpackParserException`. -/
theorem C2_parse_boundary_exceptions :
    (∀ (kaitai : Except PyExc BmpData) (e : PyExc),
      bmpParse kaitai = Except.error e → e.isUnpackParserException = true) ∧
    (∀ (file_size : Nat) (kaitai : Except PyExc AndroidImgHuawei) (e : PyExc),
      huaweiParse file_size kaitai = Except.error e → e.isUnpackParserException = true) := by
  constructor
  · intro kaitai e h
    cases kaitai with
    | error e' =>
      injection h with h'
      subst h'
      rfl
    | ok d => simp [bmpParse] at h
  · intro file_size kaitai e h
    cases kaitai with
    | error e' =>
      injection h with h'
      subst h'
      rfl
    | ok d =>
      cases h76 : (d.img_header.meta_header_size == 76) with
      | false =>
        simp [huaweiParse, check_condition, h76] at h
        subst h
        rfl
      | true =>
        cases hged : decide (file_size ≥ huaweiUnpackedSize d) with
        | false =>
          simp [huaweiParse, check_condition, h76, hged] at h
          subst h
          rfl
        | true => simp [huaweiParse, check_condition, h76, hged] at h

/-- C2 witness: a kaitai end-of-stream error through the BMP `parse`, and a
failed header check through the Huawei `parse`. -/
theorem C2_witness :
    (PyExc.unpackParserException ["EOF"]).isUnpackParserException = true ∧
      (PyExc.unpackParserException ["invalid header size"]).isUnpackParserException = true :=
  ⟨C2_parse_boundary_exceptions.1 (Except.error (PyExc.endOfStream ["EOF"]))
      (PyExc.unpackParserException ["EOF"]) (by decide),
    C2_parse_boundary_exceptions.2 0 (Except.ok huaweiBadHeaderImage)
      (PyExc.unpackParserException ["invalid header size"]) (by decide)⟩

/-- C3: `AndroidBootHuaweiUnpackParser.parse` raises `UnpackParserException`
iff the kaitai structural parse raised, or the declared meta header size is
not 76, or the file size is smaller than the maximum entry end offset; when
none of these holds, `parse` succeeds. -/
theorem C3_huawei_parse_error_characterization :
    ∀ (file_size : Nat) (kaitai : Except PyExc AndroidImgHuawei),
      ((∃ e, huaweiParse file_size kaitai = Except.error e) ↔
        ((∃ e, kaitai = Except.error e) ∨
          (∃ data, kaitai = Except.ok data ∧
            (data.img_header.meta_header_size ≠ 76 ∨
              file_size < huaweiUnpackedSize data)))) ∧
      (∀ data, kaitai = Except.ok data → data.img_header.meta_header_size = 76 →
        huaweiUnpackedSize data ≤ file_size →
        huaweiParse file_size kaitai = Except.ok (data, huaweiUnpackedSize data)) := by
  intro file_size kaitai
  refine ⟨huaweiParse_error_iff file_size kaitai, ?_⟩
  intro data hk h76 hle
  exact (huaweiParse_ok_iff file_size kaitai data (huaweiUnpackedSize data)).mpr
    ⟨hk, h76, hle, rfl⟩

/-- C3 witness: the two-entry image, whose entries end at offset 12, parses
against file size 12. -/
theorem C3_witness :
    huaweiParse 12 (Except.ok huaweiTwoEntryImage) =
      Except.ok (huaweiTwoEntryImage, huaweiUnpackedSize huaweiTwoEntryImage) :=
  (C3_huawei_parse_error_characterization 12 (Except.ok huaweiTwoEntryImage)).2
    huaweiTwoEntryImage rfl rfl (by decide)

/-- C4: on every successful Huawei parse the consumed length is the
`unpacked_size` computed during `parse` as a pure function of the parsed
state: the maximum entry end offset (an upper bound on every entry's end,
attained by some entry unless it is 0), and the subsequent
`calculate_unpacked_size` call leaves it unchanged. -/
theorem C4_huawei_consumed_length :
    ∀ (file_size : Nat) (kaitai : Except PyExc AndroidImgHuawei)
      (data : AndroidImgHuawei) (sz : Nat),
      huaweiParse file_size kaitai = Except.ok (data, sz) →
        sz = huaweiUnpackedSize data ∧
        (∀ entry ∈ data.img_header_entries, entry.offset + entry.size ≤ sz) ∧
        (sz = 0 ∨ ∃ entry ∈ data.img_header_entries, entry.offset + entry.size = sz) ∧
        huaweiCalculateUnpackedSize sz = sz := by
  intro file_size kaitai data sz h
  obtain ⟨-, -, -, rfl⟩ := (huaweiParse_ok_iff file_size kaitai data sz).mp h
  have hmap : huaweiUnpackedSize data =
      (data.img_header_entries.map (fun e => e.offset + e.size)).foldl max 0 := by
    simp [huaweiUnpackedSize, List.foldl_map]
  refine ⟨rfl, ?_, ?_, rfl⟩
  · intro entry hmem
    rw [hmap]
    exact foldl_max_mem_le _ 0 _ (List.mem_map_of_mem _ hmem)
  · rw [hmap]
    rcases foldl_max_eq_or_mem (data.img_header_entries.map (fun e => e.offset + e.size)) 0
        with h0 | hmem
    · exact Or.inl h0
    · rcases List.mem_map.mp hmem with ⟨entry, hin, heq⟩
      exact Or.inr ⟨entry, hin, heq⟩

/-- C4 witness: the two-entry image against file size 12; its consumed length
is 12 and `calculate_unpacked_size` keeps it. -/
theorem C4_witness :
    (12 : Nat) = huaweiUnpackedSize huaweiTwoEntryImage ∧
      huaweiCalculateUnpackedSize 12 = 12 :=
  ⟨(C4_huawei_consumed_length 12 (Except.ok huaweiTwoEntryImage) huaweiTwoEntryImage 12
      (by decide)).1,
    (C4_huawei_consumed_length 12 (Except.ok huaweiTwoEntryImage) huaweiTwoEntryImage 12
      (by decide)).2.2.2⟩

/-- C5: `unpack` produces exactly one `FileResult` per header entry whose
size is nonzero and whose name is non-empty, in header-entry order, each
extracting the byte range `(entry.offset, entry.size)` to the path
`entry.name`; entries with zero size or an empty name produce nothing. -/
theorem C5_huawei_unpack_results :
    ∀ data : AndroidImgHuawei,
      huaweiUnpack data.img_header_entries =
        (data.img_header_entries.filter
            (fun entry => !(entry.size == 0) && !(entry.name == ""))).map
          (fun entry => { path := entry.name, offset := entry.offset, size := entry.size }) := by
  intro data
  induction data.img_header_entries with
  | nil => rfl
  | cons entry rest ih =>
    cases hs : entry.size == 0 with
    | true => simp [huaweiUnpack, hs, List.filter_cons, ih]
    | false =>
      cases hn : entry.name == "" with
      | true => simp [huaweiUnpack, hs, hn, List.filter_cons, ih]
      | false => simp [huaweiUnpack, hs, hn, List.filter_cons, ih]

/-- C6: `set_metadata_and_labels` is a total function of the parsed state; it
sets the labels to exactly `['android', 'bootloader', 'huawei']` and
`metadata['partitions']` to one record per header entry with nonzero size
(whether or not the entry's name is empty), in header-entry order. -/
theorem C6_huawei_metadata_and_labels :
    ∀ data : AndroidImgHuawei,
      (huaweiSetMetadataAndLabels data).labels = ["android", "bootloader", "huawei"] ∧
        (huaweiSetMetadataAndLabels data).partitions =
          (data.img_header_entries.filter (fun entry => !(entry.size == 0))).map
            (fun entry => { name := entry.name, offset := entry.offset, size := entry.size }) := by
  intro data
  refine ⟨rfl, ?_⟩
  simp only [huaweiSetMetadataAndLabels]
  induction data.img_header_entries with
  | nil => rfl
  | cons entry rest ih =>
    cases hs : entry.size == 0 with
    | true => simp [huaweiPartitions, hs, List.filter_cons, ih]
    | false => simp [huaweiPartitions, hs, List.filter_cons, ih]

/-- C7: when the `HASH` state file exists and its content equals the SHA-256
hex digest of the downloaded listing, the crawler deletes the metadata copy
it just wrote and exits with status 0 with no download task enqueued and the
`HASH` file untouched; otherwise it overwrites `HASH` with the new digest and
continues to the enqueue phase. -/
theorem C7_crawler_hash_gate :
    ∀ (filehash : String) (store : CrawlerStore) (poolpaths : List String),
      (store.hashFileContent = some filehash →
        crawlerRun filehash store poolpaths =
          ({ hashFileContent := store.hashFileContent, metaFileExists := false },
            CrawlerOutcome.exitZero, [])) ∧
      (store.hashFileContent ≠ some filehash →
        crawlerRun filehash store poolpaths =
          ({ hashFileContent := some filehash, metaFileExists := store.metaFileExists },
            CrawlerOutcome.continued,
            poolpaths.foldl (fun acc p => acc ++ enqueueFor p) [])) := by
  intro filehash store poolpaths
  cases store with
  | mk hc me =>
    constructor
    · intro h
      cases hc with
      | none => simp at h
      | some old =>
        have h' : old = filehash := by simpa using h
        subst h'
        simp [crawlerRun, hashCheckStep]
    · intro h
      cases hc with
      | none => simp [crawlerRun, hashCheckStep]
      | some old =>
        have hne : (old == filehash) = false := by
          apply beq_eq_false_iff_ne.mpr
          intro he
          exact h (by simp [he])
        simp [crawlerRun, hashCheckStep, hne]

/-- The digest of a listing already seen. -/
def hashSeen : String := "2f3a"

/-- The digest of a fresh listing. -/
def hashFresh : String := "9b1c"

/-- A store directory whose `HASH` file holds `hashSeen`, right after the
metadata copy was written. -/
def crawlerStoreSeen : CrawlerStore :=
  { hashFileContent := some hashSeen, metaFileExists := true }

/-- A one-file pool listing. -/
def poolExample : List String := ["hello_2.10-2_amd64.deb"]

/-- C7 witness: the crawler on a repeated digest and on a fresh digest. -/
theorem C7_witness :
    crawlerRun hashSeen crawlerStoreSeen poolExample =
        ({ hashFileContent := some hashSeen, metaFileExists := false },
          CrawlerOutcome.exitZero, []) ∧
      crawlerRun hashFresh crawlerStoreSeen poolExample =
        ({ hashFileContent := some hashFresh, metaFileExists := true },
          CrawlerOutcome.continued,
          poolExample.foldl (fun acc p => acc ++ enqueueFor p) []) :=
  ⟨(C7_crawler_hash_gate hashSeen crawlerStoreSeen poolExample).1 rfl,
    (C7_crawler_hash_gate hashFresh crawlerStoreSeen poolExample).2 (by decide)⟩

/-- A download attempt contains exactly one `task_done` acknowledgement. -/
lemma downloadRequest_count_taskDone (f : String) (http : HttpOutcome) :
    (downloadRequest f http).count DlEvent.taskDone = 1 := by
  cases http with
  | requestException => rfl
  | response status content =>
    cases h : (status != 200) with
    | true => simp [downloadRequest, h]
    | false => simp [downloadRequest, h]

/-- A download attempt always performs the GET. -/
lemma downloadRequest_httpGet (f : String) (http : HttpOutcome) :
    DlEvent.httpGet ∈ downloadRequest f http := by
  cases http with
  | requestException => simp [downloadRequest]
  | response status content =>
    cases h : (status != 200) with
    | true => simp [downloadRequest, h]
    | false => simp [downloadRequest, h]

/-- A download attempt puts the file name on the fail queue iff the GET
failed. -/
lemma downloadRequest_failPut (f : String) (http : HttpOutcome) :
    DlEvent.failPut f ∈ downloadRequest f http ↔ httpFailed http = true := by
  cases http with
  | requestException => simp [downloadRequest, httpFailed]
  | response status content =>
    cases h : (status != 200) with
    | true => simp [downloadRequest, httpFailed, h]
    | false => simp [downloadRequest, httpFailed, h]

/-- Every `downloadfile` iteration acknowledges its task exactly once. -/
lemma downloadIter_count_taskDone (f : String) (sz : Nat) (ex : Option (List Nat))
    (http : HttpOutcome) :
    (downloadIter f sz ex http).count DlEvent.taskDone = 1 := by
  cases ex with
  | none => exact downloadRequest_count_taskDone f http
  | some c =>
    cases hcl : (c.length == sz) with
    | true => simp [downloadIter, hcl]
    | false => simp [downloadIter, hcl, downloadRequest_count_taskDone]

/-- C8: a worker acknowledges every dequeued task exactly once and proceeds
to the next task (the loop processes its whole task sequence, one
`task_done` per task), and a task's file name goes on the fail queue iff the
GET was performed and it raised a `RequestException` or returned a status
other than 200; a failure never ends the loop. -/
theorem C8_downloadfile_worker :
    (∀ tasks : List (String × Nat × Option (List Nat) × HttpOutcome),
      (downloadfile tasks).count DlEvent.taskDone = tasks.length) ∧
    (∀ (debianfile : String) (debiansize : Nat) (existing : Option (List Nat))
        (http : HttpOutcome),
      (downloadIter debianfile debiansize existing http).count DlEvent.taskDone = 1 ∧
        (DlEvent.failPut debianfile ∈ downloadIter debianfile debiansize existing http ↔
          (DlEvent.httpGet ∈ downloadIter debianfile debiansize existing http ∧
            httpFailed http = true))) := by
  constructor
  · intro tasks
    induction tasks with
    | nil => rfl
    | cons t rest ih =>
      obtain ⟨f, sz, ex, http⟩ := t
      simp [downloadfile, List.count_append, ih, downloadIter_count_taskDone,
        Nat.add_comm]
  · intro f sz ex http
    refine ⟨downloadIter_count_taskDone f sz ex http, ?_⟩
    cases ex with
    | none => simp [downloadIter, downloadRequest_failPut, downloadRequest_httpGet]
    | some c =>
      cases hcl : (c.length == sz) with
      | true => simp [downloadIter, hcl]
      | false => simp [downloadIter, hcl, downloadRequest_failPut, downloadRequest_httpGet]

/-- C9: the crawler's mirror layout holds the sections `contrib`, `main` and
`non-free` under each of the category directories `binary`, `source`, `dsc`
and `patches`, and each pool file is enqueued to the category directory its
suffix determines — `.dsc` to dsc, architecture `.deb`s to binary, `.diff.gz`
to patches, the three `.orig.tar.*` suffixes to source — while files matching
none of the suffixes are never enqueued. -/
theorem C9_crawler_layout_and_routing :
    ((["binary", "source", "dsc", "patches"] : List String).all
        (fun cat => debianSections.all
          (fun sec => sectionSubdirs.contains (cat, sec))) = true) ∧
      (∀ downloadpath : String,
        enqueueFor downloadpath =
          if endswith downloadpath suffix_dsc then [DebCategory.dscdirectory]
          else if debArchMatch downloadpath then [DebCategory.binarydirectory]
          else if endswith downloadpath suffix_diff_gz then [DebCategory.patchesdirectory]
          else if endswith downloadpath suffix_orig_tar_bz2 ||
              endswith downloadpath suffix_orig_tar_gz ||
              endswith downloadpath suffix_orig_tar_xz then [DebCategory.sourcedirectory]
          else []) :=
  ⟨by decide, enqueueFor_eq⟩

/-- C10: a task whose destination file exists with the listed size triggers
no GET and leaves the file unchanged; a destination file with any other size
is unlinked before the download attempt. -/
theorem C10_download_skip_and_redownload :
    ∀ (debianfile : String) (debiansize : Nat) (content : List Nat) (http : HttpOutcome),
      (content.length = debiansize →
        downloadIter debianfile debiansize (some content) http = [DlEvent.taskDone] ∧
          DlEvent.httpGet ∉ downloadIter debianfile debiansize (some content) http ∧
          fileAfter (some content) (downloadIter debianfile debiansize (some content) http) =
            some content) ∧
      (content.length ≠ debiansize →
        downloadIter debianfile debiansize (some content) http =
          DlEvent.unlink :: downloadRequest debianfile http) := by
  intro f sz c http
  constructor
  · intro h
    have hb : (c.length == sz) = true := beq_iff_eq.mpr h
    refine ⟨?_, ?_, ?_⟩ <;> simp [downloadIter, hb, fileAfter]
  · intro h
    have hb : (c.length == sz) = false := beq_eq_false_iff_ne.mpr h
    simp [downloadIter, hb]

/-- A file name for the C10 witness. -/
def debFileName : String := "hello_2.10-2_amd64.deb"

/-- A two-byte destination-file content. -/
def fileTwoBytes : List Nat := [7, 9]

/-- C10 witness: the matching-size task against a `RequestException`, and the
mismatching-size task against a successful response. -/
theorem C10_witness :
    (downloadIter debFileName 2 (some fileTwoBytes) HttpOutcome.requestException =
          [DlEvent.taskDone] ∧
        DlEvent.httpGet ∉
          downloadIter debFileName 2 (some fileTwoBytes) HttpOutcome.requestException ∧
        fileAfter (some fileTwoBytes)
            (downloadIter debFileName 2 (some fileTwoBytes) HttpOutcome.requestException) =
          some fileTwoBytes) ∧
      downloadIter debFileName 3 (some fileTwoBytes) (HttpOutcome.response 200 [5]) =
        DlEvent.unlink :: downloadRequest debFileName (HttpOutcome.response 200 [5]) :=
  ⟨(C10_download_skip_and_redownload debFileName 2 fileTwoBytes
        HttpOutcome.requestException).1 rfl,
    (C10_download_skip_and_redownload debFileName 3 fileTwoBytes
        (HttpOutcome.response 200 [5])).2 (by decide)⟩

end Bang
